import Mathlib

/-!
Verification of the interview session orchestration layer of the SRA
repository (backend/app/services/interview_service.py,
backend/app/services/video_interview_service.py,
backend/app/routers/websocket_router.py,
backend/app/routers/video_interview_router.py).

Modelling conventions:
* Timestamps are whole seconds as `Int` (sub-second precision of
  `datetime` is abstracted away; `datetime.now()` becomes an explicit
  `now` argument threaded through each operation).
* The Gemini HTTP call `get_questions` raises on a non-200 response or a
  malformed body; it is modelled as an abstract collaborator
  `gw : String → Except String String` mapping the prompt to either the
  generated text or the raised error message.
* Supabase writes are wrapped in `try/except` with only a `print` in the
  handler, so they never affect the in-memory state; they are omitted.
* The module-level dict `interview_sessions` becomes an explicit
  association-list registry threaded through each operation.
* Prompt templates keep the structure and every interpolated value of
  the source f-strings; the fixed English filler between interpolations
  is abridged and its punctuation simplified.
-/

/-- One entry of a session's `conversation_history` list: a dict with
`role`, `content` and `timestamp` keys. -/
structure Message where
  role : String
  content : String
  timestamp : Int
deriving Repr, DecidableEq

/-- The candidate profile snapshot handed to `initiate_interview` as
`resume_data`: the fields the prompt construction reads
(`contact_info.name`, `summary`, `skills`, `len(experience)`). -/
structure ResumeData where
  name : Option String
  summary : Option String
  skills : List String
  experience : Nat
deriving Repr, DecidableEq

/-- The per-session dict stored in `interview_sessions`. -/
structure Session where
  session_id : String
  applicant_id : String
  start_time : Int
  resume_data : Option ResumeData
  conversation_history : List Message
  status : String
  end_time : Option Int
deriving Repr, DecidableEq

/-- The in-memory session table `interview_sessions` (a Python dict),
modelled as an association list keyed by session id. -/
def Registry : Type := List (String × Session)

instance : DecidableEq Registry := by
  unfold Registry; infer_instance

/-- Dict lookup `interview_sessions[session_id]`. -/
def regGet : Registry → String → Option Session
  | [], _ => none
  | (k, v) :: rest, sid => if k = sid then some v else regGet rest sid

/-- Dict assignment `interview_sessions[session_id] = s` (update in
place when the key exists, append otherwise). -/
def regSet : Registry → String → Session → Registry
  | [], sid, s => [(sid, s)]
  | (k, v) :: rest, sid, s =>
      if k = sid then (k, s) :: rest else (k, v) :: regSet rest sid s

/-- Abstract AI collaborator standing for `get_questions`: prompt in,
generated text out, or the raised exception text. -/
def GW : Type := String → Except String String

/-- Python `list[-n:]`: the last `n` elements (all of them when the list
is shorter). -/
def lastN (n : Nat) (l : List α) : List α :=
  l.drop (l.length - n)

/-- The `"\n".join(f"{role}: {content}" ...)` formatting used both for
the bounded context window and for the report conversation text. -/
def conversation_context (msgs : List Message) : String :=
  String.intercalate "\n" (msgs.map (fun m => m.role ++ ": " ++ m.content))

/-- Number of history entries with the given role
(`len([msg for msg in history if msg["role"] == role])`). -/
def count_role (role : String) (msgs : List Message) : Nat :=
  (msgs.filter (fun m => m.role = role)).length

/-- The interview-priming prompt built by `initiate_interview` from the
resume snapshot (lines 59-79 of interview_service.py). -/
def initiate_context (resume : Option ResumeData) : String :=
  let candidate_name :=
    match resume with
    | some r => r.name.getD ""
    | none => ""
  let nameShown := if candidate_name = "" then "[Candidate Name]" else candidate_name
  let nameInfo := if candidate_name = "" then "Not provided" else candidate_name
  let summary :=
    match resume with
    | some r => r.summary.getD "No resume provided"
    | none => "No resume provided"
  let skills :=
    match resume with
    | some r => String.intercalate ", " r.skills
    | none => "Not specified"
  let expCount :=
    match resume with
    | some r => r.experience
    | none => 0
  "You are an AI interviewer conducting a professional job interview. " ++
  "Be friendly, professional, and engaging. Use the candidates actual name if provided: " ++
  nameShown ++
  "\nCandidate Information:\nName: " ++ nameInfo ++
  "\nResume Summary: " ++ summary ++
  "\nSkills: " ++ skills ++
  "\nExperience: " ++ toString expCount ++ " experience entries found\n" ++
  "Start the interview with a professional greeting using the candidates name and your first question."

/-- The follow-up prompt built by `process_answer_and_get_next` from
the bounded context window and the new answer (lines 137-153). -/
def answer_prompt (ctx answer : String) : String :=
  "Continue this job interview conversation. You are the interviewer.\n\n" ++
  "Previous conversation:\n" ++ ctx ++
  "\n\nThe candidate just answered: \"" ++ answer ++ "\"\n\n" ++
  "Provide a thoughtful follow-up question or response. " ++
  "Respond as the interviewer would in a real interview."

/-- The report prompt built by `generate_report` from the full history
(lines 206-225). -/
def report_prompt (msgs : List Message) : String :=
  "Analyze this job interview conversation and provide a comprehensive report.\n\n" ++
  "Interview Conversation:\n" ++ conversation_context msgs ++
  "\n\nPlease provide a detailed assessment including performance, communication, " ++
  "technical competency, strengths, areas for improvement, recommendation and summary. " ++
  "Format the response as a professional interview assessment report."

/-- Result dict of `initiate_interview` and of
`process_answer_and_get_next`: session id, AI message, session status. -/
structure ProcessResult where
  session_id : String
  message : String
  status : String
deriving Repr, DecidableEq

/-- Report dict produced by `generate_report` (lines 230-238). -/
structure Report where
  session_id : String
  applicant_id : String
  interview_duration : String
  total_questions : Nat
  report_content : String
  generated_at : Int
  status : String
deriving Repr, DecidableEq

/-- Python `calculate_duration` (lines 264-275): minutes between the
two timestamps, truncated toward zero as `int()` does, rendered as
`"{minutes} minutes"`. The `except` branch handles unparseable
timestamp strings, which the `Int` model has none of. -/
def calculate_duration (start_time end_time : Int) : String :=
  let minutes := Int.tdiv (end_time - start_time) 60
  s!"{minutes} minutes"

/-- Python `initiate_interview` (lines 48-114): builds the context
prompt, asks the AI for the opening turn (an exception propagates
before any state is stored), then stores the new session with one
assistant turn and status `active`. The fresh `uuid4` is the explicit
`session_id` argument. -/
def initiate_interview (gw : GW) (now : Int) (session_id : String)
    (reg : Registry) (applicant_id : String) (resume : Option ResumeData) :
    Registry × Except String ProcessResult :=
  let ctx := initiate_context resume
  match gw ctx with
  | Except.error e => (reg, Except.error e)
  | Except.ok initial =>
    let s : Session :=
      { session_id := session_id
        applicant_id := applicant_id
        start_time := now
        resume_data := resume
        conversation_history := [⟨"assistant", initial, now⟩]
        status := "active"
        end_time := none }
    (regSet reg session_id s, Except.ok ⟨session_id, initial, "active"⟩)

/-- Python `process_answer_and_get_next` (lines 116-187): raises when
the id is unknown; otherwise appends the applicant turn (an in-place
mutation visible before the AI call), builds the prompt from the last
five turns, calls the AI (an exception propagates with the applicant
turn already stored), appends the AI turn and returns the result dict.
No status check of any kind is performed. -/
def process_answer_and_get_next (gw : GW) (now : Int) (reg : Registry)
    (session_id answer : String) : Registry × Except String ProcessResult :=
  match regGet reg session_id with
  | none => (reg, Except.error "Interview session not found")
  | some s =>
    let userTurn : Message := ⟨"user", answer, now⟩
    let s1 := { s with conversation_history := s.conversation_history ++ [userTurn] }
    let reg1 := regSet reg session_id s1
    let ctx := conversation_context (lastN 5 s1.conversation_history)
    match gw (answer_prompt ctx answer) with
    | Except.error e => (reg1, Except.error e)
    | Except.ok resp =>
      let aiTurn : Message := ⟨"assistant", resp, now⟩
      let s2 := { s1 with conversation_history := s1.conversation_history ++ [aiTurn] }
      (regSet reg1 session_id s2, Except.ok ⟨session_id, resp, s.status⟩)

/-- Python `generate_report` (lines 189-262): raises when the id is
unknown; otherwise marks the session completed and stamps the end time
(both visible before the AI call, so an AI exception leaves the session
completed), asks the AI for the assessment over the full history, and
returns the report dict. The session is never removed from
`interview_sessions`. -/
def generate_report (gw : GW) (now : Int) (reg : Registry)
    (session_id : String) : Registry × Except String Report :=
  match regGet reg session_id with
  | none => (reg, Except.error "Interview session not found")
  | some s =>
    let s1 := { s with status := "completed", end_time := some now }
    let reg1 := regSet reg session_id s1
    match gw (report_prompt s1.conversation_history) with
    | Except.error e => (reg1, Except.error e)
    | Except.ok content =>
      let rep : Report :=
        { session_id := session_id
          applicant_id := s.applicant_id
          interview_duration := calculate_duration s.start_time now
          total_questions := count_role "assistant" s1.conversation_history
          report_content := content
          generated_at := now
          status := "completed" }
      (reg1, Except.ok rep)

/-- A duplex connection tracked by a connection manager; `alive` says
whether `send_text` on it succeeds (a dead connection raises). -/
structure Conn where
  id : Nat
  alive : Bool
deriving Repr, DecidableEq

/-- One iteration step of the Python `for connection in
self.active_connections[session_id]` loop of
`ConnectionManager.send_to_session` (websocket_router.py lines 34-41).
Python list iterators hold a bare index: yielding `conns[i]`, sending,
and on failure calling `list.remove` (which deletes the first equal
element and shifts the rest left) before advancing to `i + 1`. The
fuel is the initial list length; the index grows by one per step while
the list never grows, so the fuel is never exhausted. Returns the final
list and the ids delivered to, in order. -/
def send_loop : Nat → List Conn → Nat → List Conn × List Nat
  | 0, conns, _ => (conns, [])
  | fuel + 1, conns, i =>
    if h : i < conns.length then
      let c := conns.get ⟨i, h⟩
      if c.alive then
        let r := send_loop fuel conns (i + 1)
        (r.1, c.id :: r.2)
      else
        send_loop fuel (conns.erase c) (i + 1)
    else (conns, [])

/-- Python `ConnectionManager.send_to_session` restricted to one
session id: fan a message out to the registered connection list,
removing a connection whose send raises. -/
def send_to_session (conns : List Conn) : List Conn × List Nat :=
  send_loop conns.length conns 0

/-- The pydantic `WebSocketMessage` envelope (schemas.py lines 94-99). -/
structure WSMessage where
  type : String
  session_id : Option String
  content : Option String
  timestamp : Int
  user_id : Option String
deriving Repr, DecidableEq

/-- Where an outbound envelope goes: unicast to the originating
websocket (`send_personal_message`) or fan-out to the whole session
(`send_to_session`). -/
inductive Target where
  | origin
  | session
deriving Repr, DecidableEq

/-- A parsed inbound chat envelope: the dict fields the chat handler
reads (`type`, `content`, `user_id`), each possibly absent. -/
structure InMsg where
  type : Option String
  content : Option String
  user_id : Option String
deriving Repr, DecidableEq

/-- Serialization `json.dumps(report)` of the report dict sent in the
`interview_report` envelope. -/
def report_json (r : Report) : String :=
  "\x7b\"session_id\": \"" ++ r.session_id ++
  "\", \"applicant_id\": \"" ++ r.applicant_id ++
  "\", \"interview_duration\": \"" ++ r.interview_duration ++
  "\", \"total_questions\": " ++ toString r.total_questions ++
  ", \"report_content\": \"" ++ r.report_content ++
  "\", \"generated_at\": " ++ toString r.generated_at ++
  ", \"status\": \"" ++ r.status ++ "\"\x7d"

/-- One iteration of the chat websocket receive loop
(websocket_router.py lines 62-158) after one frame has been received:
`none` stands for a frame that failed `json.loads`. Dispatches on the
`type` field; a `type` that is none of `user_message`, `ping`,
`end_interview` falls through every branch and produces nothing at
all. Returns the updated registry, the updated connection list for
this session, and the outbound envelopes with their targets. -/
def handle_chat (gw : GW) (now : Int) (reg : Registry) (conns : List Conn)
    (session_id : String) (msg : Option InMsg) :
    Registry × List Conn × List (Target × WSMessage) :=
  match msg with
  | none =>
      (reg, conns,
        [(Target.origin,
          ⟨"error", some session_id,
            some "Invalid message format. Please send valid JSON.", now, none⟩)])
  | some m =>
    if m.type = some "user_message" then
      let user_message := m.content.getD ""
      let uid := m.user_id.getD "applicant"
      let userMsg : WSMessage :=
        ⟨"user_message", some session_id, some user_message, now, some uid⟩
      let conns1 := (send_to_session conns).1
      let pr := process_answer_and_get_next gw now reg session_id user_message
      match pr.2 with
      | Except.ok r =>
          let aiMsg : WSMessage :=
            ⟨"ai_response", some session_id, some r.message, now, some "interviewer"⟩
          let conns2 := (send_to_session conns1).1
          (pr.1, conns2, [(Target.session, userMsg), (Target.session, aiMsg)])
      | Except.error e =>
          let errMsg : WSMessage :=
            ⟨"error", some session_id,
              some ("Interview processing error: " ++ e), now, none⟩
          (pr.1, conns1, [(Target.session, userMsg), (Target.origin, errMsg)])
    else if m.type = some "ping" then
      (reg, conns,
        [(Target.origin, ⟨"pong", some session_id, some "pong", now, none⟩)])
    else if m.type = some "end_interview" then
      let gr := generate_report gw now reg session_id
      match gr.2 with
      | Except.ok rep =>
          let doneMsg : WSMessage :=
            ⟨"interview_completed", some session_id,
              some "Interview completed successfully! Report has been generated.",
              now, none⟩
          let conns1 := (send_to_session conns).1
          let repMsg : WSMessage :=
            ⟨"interview_report", some session_id, some (report_json rep), now, none⟩
          let conns2 := (send_to_session conns1).1
          (gr.1, conns2, [(Target.session, doneMsg), (Target.session, repMsg)])
      | Except.error e =>
          (gr.1, conns,
            [(Target.origin,
              ⟨"error", some session_id,
                some ("Error generating report: " ++ e), now, none⟩)])
    else
      (reg, conns, [])

/-- One entry of a `VideoInterviewSession.conversation_history` list:
role, content, timestamp plus the `type` tag (`text`,
`video_analysis`). -/
structure VMessage where
  role : String
  content : String
  timestamp : Int
  mtype : String
deriving Repr, DecidableEq

/-- The mutable state of a `VideoInterviewSession`
(video_interview_service.py lines 19-28). `interview_context` is the
prompt prefix built once in `__init__`. -/
structure VSession where
  session_id : String
  applicant_id : String
  start_time : Int
  status : String
  conversation_history : List VMessage
  is_connected : Bool
  end_time : Option Int
  interview_context : String
deriving Repr, DecidableEq

/-- Abstract collaborator standing for `_call_gemini_api`: prompt to
generated text, `none` on any failure (that method catches every
exception and returns `None`). -/
def VGW : Type := String → Option String

/-- The prompt assembled by `_call_gemini_api` (lines 96-170): the
interview context, the last ten history turns rendered as
`Candidate:`/`Interviewer:` lines (other roles skipped), the current
message, and the optional inline jpeg part. The payload string stands
for the base64-encoded bytes. -/
def video_api_prompt (ctx : String) (history : List VMessage)
    (user_message : String) (image_data : Option String) : String :=
  let recent := lastN 10 history
  let parts := recent.filterMap (fun m =>
    if m.role = "user" then some ("Candidate: " ++ m.content)
    else if m.role = "assistant" then some ("Interviewer: " ++ m.content)
    else none)
  String.intercalate "\n" (ctx :: (parts ++ ["Candidate: " ++ user_message])) ++
    (match image_data with
     | some d => "\n[inline image/jpeg: " ++ d ++ "]"
     | none => "")

/-- Python `VideoInterviewSession.send_audio_chunk` (lines 172-177):
prints a note and returns `True`; the session object is untouched and
the audio bytes are dropped. -/
def send_audio_chunk (s : VSession) (_audio_data : String) : VSession × Bool :=
  (s, true)

/-- Python `VideoInterviewSession.send_video_frame` (lines 179-207):
returns `False` when `is_connected` is false; otherwise asks the AI for
a brief visual commentary and, on a non-`None` response, appends it as
an assistant turn tagged `video_analysis` and returns `True`; a `None`
response yields `False` with no state change. -/
def send_video_frame (vgw : VGW) (now : Int) (s : VSession)
    (video_data : String) : VSession × Bool :=
  if !s.is_connected then (s, false)
  else
    match vgw (video_api_prompt s.interview_context s.conversation_history
        "Please analyze this video frame from the interview. Keep it brief."
        (some video_data)) with
    | some response =>
        ({ s with conversation_history := s.conversation_history ++
            [⟨"assistant", "[Video Analysis: " ++ response ++ "]", now,
              "video_analysis"⟩] }, true)
    | none => (s, false)

/-- Python `VideoInterviewSession.send_text_message` (lines 209-239):
returns `False` when disconnected; otherwise appends the user turn
first (it stays appended even when the AI call fails), calls the AI
over the context including that turn, and on success appends the
assistant turn and returns `True`. -/
def send_text_message (vgw : VGW) (now : Int) (s : VSession)
    (text : String) : VSession × Bool :=
  if !s.is_connected then (s, false)
  else
    let s1 := { s with conversation_history :=
      s.conversation_history ++ [⟨"user", text, now, "text"⟩] }
    match vgw (video_api_prompt s1.interview_context s1.conversation_history
        text none) with
    | some response =>
        ({ s1 with conversation_history := s1.conversation_history ++
            [⟨"assistant", response, now, "text"⟩] }, true)
    | none => (s1, false)

/-- Python `VideoInterviewSession.end_interview` (lines 266-279): marks
the session completed, stamps the end time, drops the connection flag,
and returns `True` (the database write is best-effort). -/
def end_interview (now : Int) (s : VSession) : VSession × Bool :=
  let s1 := { s with
    status := "completed"
    end_time := some now
    is_connected := false }
  (s1, true)

/-- An outbound JSON dict of the video websocket handler: the fields
the handler writes (`type`, `content`, `message`, `report`,
`timestamp`), each branch filling a subset. -/
structure JMsg where
  type : String
  content : Option String
  message : Option String
  report : Option String
  timestamp : Int
deriving Repr, DecidableEq

/-- A parsed inbound video envelope: the dict fields the video handler
reads (`type`, `data`, `content`), each possibly absent. -/
structure VInMsg where
  type : Option String
  data : Option String
  content : Option String
deriving Repr, DecidableEq

/-- One iteration of the video websocket receive loop
(video_interview_router.py lines 177-287) after one frame has been
received: `none` stands for a frame that failed `json.loads`. `vrep`
stands for the outcome of `generate_video_interview_report`, which
reads the external store and the AI and is abstracted as a collaborator
result. Unlike the chat handler, an unrecognized `type` here has an
explicit `else` branch unicasting an `error` envelope naming the
unknown type. The base64 decode of binary payloads is abstracted (the
payload string is passed through). -/
def handle_video (vgw : VGW) (vrep : Except String String) (now : Int)
    (vs : VSession) (conns : List Conn) (msg : Option VInMsg) :
    VSession × List Conn × List (Target × JMsg) :=
  match msg with
  | none =>
      (vs, conns,
        [(Target.origin,
          ⟨"error", none, some "Invalid message format. Please send valid JSON.",
            none, now⟩)])
  | some m =>
    if m.type = some "audio_chunk" then
      let r := send_audio_chunk vs (m.data.getD "")
      if r.2 then (r.1, conns, [])
      else (r.1, conns,
        [(Target.origin,
          ⟨"error", none, some "Failed to send audio to AI", none, now⟩)])
    else if m.type = some "video_frame" then
      let r := send_video_frame vgw now vs (m.data.getD "")
      if r.2 then (r.1, conns, [])
      else (r.1, conns,
        [(Target.origin,
          ⟨"error", none, some "Failed to send video to AI", none, now⟩)])
    else if m.type = some "text_message" then
      let text := m.content.getD ""
      let r := send_text_message vgw now vs text
      if r.2 then
        let conns1 := (send_to_session conns).1
        (r.1, conns1,
          [(Target.session, ⟨"user_message", some text, none, none, now⟩)])
      else (r.1, conns,
        [(Target.origin,
          ⟨"error", none, some "Failed to send message to AI", none, now⟩)])
    else if m.type = some "ping" then
      (vs, conns, [(Target.origin, ⟨"pong", none, none, none, now⟩)])
    else if m.type = some "end_interview" then
      let r := end_interview now vs
      match vrep with
      | Except.ok repjson =>
          let conns1 := (send_to_session conns).1
          (r.1, conns1,
            [(Target.session,
              ⟨"interview_completed", none,
                some "Video interview completed successfully!",
                some repjson, now⟩)])
      | Except.error e =>
          (r.1, conns,
            [(Target.origin,
              ⟨"error", none, some ("Error ending interview: " ++ e), none, now⟩)])
    else
      let tshow := match m.type with | some t => t | none => "None"
      (vs, conns,
        [(Target.origin,
          ⟨"error", none, some ("Unknown message type: " ++ tshow), none, now⟩)])

/-! Helper lemmas and concrete fixtures. -/

theorem regGet_regSet_self (reg : Registry) (sid : String) (s : Session) :
    regGet (regSet reg sid s) sid = some s := by
  induction reg with
  | nil => simp [regSet, regGet]
  | cons p rest ih =>
    obtain ⟨k, v⟩ := p
    by_cases hk : k = sid
    · simp [regSet, regGet, hk]
    · simp [regSet, regGet, hk, ih]

/-- A gateway whose every call succeeds with a fixed reply. -/
def gwOk : GW := fun _ => Except.ok "Next question"

/-- A gateway whose every call raises. -/
def gwFail : GW := fun _ => Except.error "Gemini API error: 500"

/-- A sample opening interviewer turn. -/
def msg0 : Message := ⟨"assistant", "Hello, welcome", 0⟩

/-- A sample session that has already been completed but is still in
the in-memory table, as `generate_report` leaves it. -/
def sessDone : Session :=
  { session_id := "s1"
    applicant_id := "a1"
    start_time := 0
    resume_data := none
    conversation_history := [msg0]
    status := "completed"
    end_time := some 60 }

/-- Registry holding only the completed sample session. -/
def regDone : Registry := [("s1", sessDone)]

/-- A sample active session. -/
def sessActive : Session :=
  { session_id := "s1"
    applicant_id := "a1"
    start_time := 0
    resume_data := none
    conversation_history := [msg0]
    status := "active"
    end_time := none }

/-- Registry holding only the active sample session. -/
def regActive : Registry := [("s1", sessActive)]

/-- C1. The claim is false on the code: `process_answer_and_get_next`
checks only membership in `interview_sessions`, never the status. On a
session whose status is `completed` the call succeeds and appends two
turns (history grows from 1 to 3 entries) instead of failing with
`InvalidState` and leaving the history unchanged. -/
theorem C1_counterexample :
    (process_answer_and_get_next gwOk 120 regDone "s1" "my answer").2 =
      Except.ok ⟨"s1", "Next question", "completed"⟩ ∧
    (regGet (process_answer_and_get_next gwOk 120 regDone "s1" "my answer").1
        "s1").map (fun s => s.conversation_history.length) = some 3 := by
  constructor <;> rfl

/-- C1 (amended). For every session whose status is `completed` or
`cancelled` that is still present in the session table, submitText
(`process_answer_and_get_next`) does not fail with `InvalidState`: when
the AI call succeeds it appends the applicant turn and the interviewer
turn and returns normally, echoing the terminal status. -/
theorem C1_amended (gw : GW) (now : Int) (reg : Registry)
    (sid answer resp : String) (s : Session)
    (hs : regGet reg sid = some s)
    (hstatus : s.status = "completed" ∨ s.status = "cancelled")
    (hgw : gw (answer_prompt
        (conversation_context
          (lastN 5 (s.conversation_history ++ [⟨"user", answer, now⟩])))
        answer) = Except.ok resp) :
    (process_answer_and_get_next gw now reg sid answer).2 =
      Except.ok ⟨sid, resp, s.status⟩ ∧
    regGet (process_answer_and_get_next gw now reg sid answer).1 sid =
      some { s with conversation_history := s.conversation_history ++
          [⟨"user", answer, now⟩, ⟨"assistant", resp, now⟩] } := by
  unfold process_answer_and_get_next
  rw [hs]
  simp [hgw, regGet_regSet_self]

/-- Closed instance of C1_amended at the completed sample session. -/
theorem C1_amended_witness :
    (process_answer_and_get_next gwOk 120 regDone "s1" "my answer").2 =
      Except.ok ⟨"s1", "Next question", sessDone.status⟩ ∧
    regGet (process_answer_and_get_next gwOk 120 regDone "s1" "my answer").1
        "s1" =
      some { sessDone with conversation_history :=
          sessDone.conversation_history ++
            [⟨"user", "my answer", 120⟩, ⟨"assistant", "Next question", 120⟩] } :=
  C1_amended gwOk 120 regDone "s1" "my answer" "Next question" sessDone
    (by rfl) (Or.inl rfl) (by rfl)

/-- C10. When the AI call inside `process_answer_and_get_next` raises,
the applicant turn has already been appended to the stored history and
remains there, and the stored session keeps every other field (status
included) unchanged; the error propagates to the caller. -/
theorem C10_gateway_failure_keeps_applicant_turn (gw : GW) (now : Int)
    (reg : Registry) (sid answer e : String) (s : Session)
    (hs : regGet reg sid = some s)
    (hgw : gw (answer_prompt
        (conversation_context
          (lastN 5 (s.conversation_history ++ [⟨"user", answer, now⟩])))
        answer) = Except.error e) :
    process_answer_and_get_next gw now reg sid answer =
      (regSet reg sid { s with conversation_history :=
          s.conversation_history ++ [⟨"user", answer, now⟩] },
       Except.error e) := by
  unfold process_answer_and_get_next
  rw [hs]
  simp only [hgw]

/-- Closed instance of C10 at the active sample session with a failing
gateway. -/
theorem C10_witness :
    process_answer_and_get_next gwFail 60 regActive "s1" "my answer" =
      (regSet regActive "s1" { sessActive with conversation_history :=
          sessActive.conversation_history ++ [⟨"user", "my answer", 60⟩] },
       Except.error "Gemini API error: 500") :=
  C10_gateway_failure_keeps_applicant_turn gwFail 60 regActive "s1"
    "my answer" "Gemini API error: 500" sessActive (by rfl) (by rfl)

/-- C9. `send_audio_chunk` returns `True` and leaves the session value
(history, status and connection flag included) untouched: the audio
payload is dropped. -/
theorem C9_audio_chunk_accepted_and_noop (vs : VSession) (d : String) :
    send_audio_chunk vs d = (vs, true) := rfl

/-- A connection whose send raises. -/
def connDead : Conn := ⟨0, false⟩

/-- A live connection. -/
def connLiveA : Conn := ⟨1, true⟩

/-- Another live connection. -/
def connLiveB : Conn := ⟨2, true⟩

/-- C2. With three registered connections of which the first is dead,
`send_to_session` removes the dead one and does not abort, but it
delivers only to connection 2: `list.remove` inside the `for` loop
shifts the remaining elements left while the iterator index advances,
so connection 1 is skipped. The claim that both live connections
receive the message is false on the code. -/
theorem C2_dead_connection_skips_next_live :
    send_to_session [connDead, connLiveA, connLiveB] =
      ([connLiveA, connLiveB], [2]) := by decide

/-- Evaluation of `generate_report` on a registered session when the
AI call succeeds. -/
theorem generate_report_spec (gw : GW) (now : Int) (reg : Registry)
    (sid c : String) (s : Session)
    (hs : regGet reg sid = some s)
    (hgw : gw (report_prompt s.conversation_history) = Except.ok c) :
    generate_report gw now reg sid =
      (regSet reg sid { s with status := "completed", end_time := some now },
       Except.ok
        { session_id := sid
          applicant_id := s.applicant_id
          interview_duration := calculate_duration s.start_time now
          total_questions := count_role "assistant" s.conversation_history
          report_content := c
          generated_at := now
          status := "completed" }) := by
  unfold generate_report
  rw [hs]
  simp [hgw]

/-- Evaluation of `generate_report` on a registered session when the
AI call raises: the session is already marked completed with the end
time stamped when the exception propagates. -/
theorem generate_report_err (gw : GW) (now : Int) (reg : Registry)
    (sid e : String) (s : Session)
    (hs : regGet reg sid = some s)
    (hgw : gw (report_prompt s.conversation_history) = Except.error e) :
    generate_report gw now reg sid =
      (regSet reg sid { s with status := "completed", end_time := some now },
       Except.error e) := by
  unfold generate_report
  rw [hs]
  simp [hgw]

/-- C3. Calling `generate_report` a second time on the registry left
by a first successful call never fails: the history was not modified,
so the same prompt is re-sent to the same gateway and the second report
agrees with the first on the narrative content, the question count, the
session id and the applicant id (the duration and generation timestamps
are recomputed from the later clock). -/
theorem C3_end_idempotent_on_content (gw : GW) (t1 t2 : Int)
    (reg : Registry) (sid : String) (s : Session) (r1 : Report)
    (hs : regGet reg sid = some s)
    (h1 : (generate_report gw t1 reg sid).2 = Except.ok r1) :
    ∃ r2 : Report,
      (generate_report gw t2 (generate_report gw t1 reg sid).1 sid).2 =
        Except.ok r2 ∧
      r2.report_content = r1.report_content ∧
      r2.total_questions = r1.total_questions ∧
      r2.session_id = r1.session_id ∧
      r2.applicant_id = r1.applicant_id := by
  cases hgw : gw (report_prompt s.conversation_history) with
  | error e =>
      rw [generate_report_err gw t1 reg sid e s hs hgw] at h1
      simp at h1
  | ok c =>
      rw [generate_report_spec gw t1 reg sid c s hs hgw] at h1
      rw [generate_report_spec gw t1 reg sid c s hs hgw]
      have hs1 := regGet_regSet_self reg sid
        { s with status := "completed", end_time := some t1 }
      rw [generate_report_spec gw t2 _ sid c _ hs1 hgw]
      simp only [Except.ok.injEq] at h1
      subst h1
      exact ⟨_, rfl, rfl, rfl, rfl, rfl⟩

/-- Closed instance of C3 at the active sample session. -/
theorem C3_witness :
    ∃ r2 : Report,
      (generate_report gwOk 120 (generate_report gwOk 60 regActive "s1").1
          "s1").2 = Except.ok r2 ∧
      r2.report_content =
        (Report.mk "s1" "a1" "1 minutes" 1 "Next question" 60
          "completed").report_content ∧
      r2.total_questions =
        (Report.mk "s1" "a1" "1 minutes" 1 "Next question" 60
          "completed").total_questions ∧
      r2.session_id =
        (Report.mk "s1" "a1" "1 minutes" 1 "Next question" 60
          "completed").session_id ∧
      r2.applicant_id =
        (Report.mk "s1" "a1" "1 minutes" 1 "Next question" 60
          "completed").applicant_id :=
  C3_end_idempotent_on_content gwOk 60 120 regActive "s1" sessActive
    (Report.mk "s1" "a1" "1 minutes" 1 "Next question" 60 "completed")
    (by rfl) (by rfl)

/-- C4. The claim is false on the code: after `generate_report`
returns, the session is still present in the in-memory table (nothing
removes it), merely marked completed with its end time stamped. -/
theorem C4_counterexample :
    regGet (generate_report gwOk 200 regActive "s1").1 "s1" =
      some { sessActive with status := "completed", end_time := some 200 } := by
  rfl

/-- C4 (amended). After a successful `generate_report` the session's
status is `completed` and its end time is stamped, but the session is
not removed from the in-memory table: it remains registered under its
id with only those two fields changed (and `generate_report` takes no
connection state at all, so no ConnectionManager cleanup happens). -/
theorem C4_amended (gw : GW) (now : Int) (reg : Registry)
    (sid c : String) (s : Session)
    (hs : regGet reg sid = some s)
    (hgw : gw (report_prompt s.conversation_history) = Except.ok c) :
    (generate_report gw now reg sid).2 =
      Except.ok
        { session_id := sid
          applicant_id := s.applicant_id
          interview_duration := calculate_duration s.start_time now
          total_questions := count_role "assistant" s.conversation_history
          report_content := c
          generated_at := now
          status := "completed" } ∧
    regGet (generate_report gw now reg sid).1 sid =
      some { s with status := "completed", end_time := some now } := by
  unfold generate_report
  rw [hs]
  simp [hgw, regGet_regSet_self]

/-- Closed instance of C4_amended at the active sample session. -/
theorem C4_amended_witness :
    (generate_report gwOk 200 regActive "s1").2 =
      Except.ok
        { session_id := "s1"
          applicant_id := sessActive.applicant_id
          interview_duration := calculate_duration sessActive.start_time 200
          total_questions :=
            count_role "assistant" sessActive.conversation_history
          report_content := "Next question"
          generated_at := 200
          status := "completed" } ∧
    regGet (generate_report gwOk 200 regActive "s1").1 "s1" =
      some { sessActive with status := "completed", end_time := some 200 } :=
  C4_amended gwOk 200 regActive "s1" "Next question" sessActive
    (by rfl) (by rfl)

/-- C5. The happy-path scenario: with a gateway whose every call
succeeds, `initiate_interview` returns status `active` and stores a
history of exactly one interviewer (`assistant`) turn; after one
`process_answer_and_get_next` the stored history is three turns in the
order interviewer, applicant, interviewer; `generate_report` then
returns a report with `total_questions = 2`, status `completed` (also
recorded on the stored session) and a duration rendered in whole
minutes. -/
theorem C5_scenario (gwf : String → String) (t0 t1 t2 : Int)
    (sid aid ans : String) (resume : Option ResumeData) (reg : Registry) :
    (initiate_interview (fun p => Except.ok (gwf p)) t0 sid reg aid resume).2 =
      Except.ok ⟨sid, gwf (initiate_context resume), "active"⟩ ∧
    ((regGet (initiate_interview (fun p => Except.ok (gwf p)) t0 sid reg aid
          resume).1 sid).map
        (fun s => (s.conversation_history.map Message.role, s.status))) =
      some (["assistant"], "active") ∧
    ((regGet (process_answer_and_get_next (fun p => Except.ok (gwf p)) t1
          (initiate_interview (fun p => Except.ok (gwf p)) t0 sid reg aid
            resume).1 sid ans).1 sid).map
        (fun s => s.conversation_history.map Message.role)) =
      some ["assistant", "user", "assistant"] ∧
    ((generate_report (fun p => Except.ok (gwf p)) t2
          (process_answer_and_get_next (fun p => Except.ok (gwf p)) t1
            (initiate_interview (fun p => Except.ok (gwf p)) t0 sid reg aid
              resume).1 sid ans).1 sid).2.toOption.map Report.total_questions) =
      some 2 ∧
    ((generate_report (fun p => Except.ok (gwf p)) t2
          (process_answer_and_get_next (fun p => Except.ok (gwf p)) t1
            (initiate_interview (fun p => Except.ok (gwf p)) t0 sid reg aid
              resume).1 sid ans).1 sid).2.toOption.map Report.status) =
      some "completed" ∧
    ((regGet (generate_report (fun p => Except.ok (gwf p)) t2
          (process_answer_and_get_next (fun p => Except.ok (gwf p)) t1
            (initiate_interview (fun p => Except.ok (gwf p)) t0 sid reg aid
              resume).1 sid ans).1 sid).1 sid).map Session.status) =
      some "completed" ∧
    ∃ m : Int,
      ((generate_report (fun p => Except.ok (gwf p)) t2
            (process_answer_and_get_next (fun p => Except.ok (gwf p)) t1
              (initiate_interview (fun p => Except.ok (gwf p)) t0 sid reg aid
                resume).1 sid ans).1 sid).2.toOption.map Report.interview_duration) =
        some s!"{m} minutes" := by
  refine ⟨rfl, ?_, ?_, ?_, ?_, ?_, ?_⟩
  · simp [initiate_interview, regGet_regSet_self]
  · simp [initiate_interview, process_answer_and_get_next, regGet_regSet_self]
  · simp [initiate_interview, process_answer_and_get_next, generate_report,
      regGet_regSet_self, count_role]
    exact ⟨_, rfl, rfl⟩
  · simp [initiate_interview, process_answer_and_get_next, generate_report,
      regGet_regSet_self]
    exact ⟨_, rfl, rfl⟩
  · simp [initiate_interview, process_answer_and_get_next, generate_report,
      regGet_regSet_self]
  · refine ⟨Int.tdiv (t2 - t0) 60, ?_⟩
    simp [initiate_interview, process_answer_and_get_next, generate_report,
      regGet_regSet_self, calculate_duration]
    exact ⟨_, rfl, rfl⟩

/-- C6. The claim is false on the code: the chat websocket handler has
no fallback branch, so an inbound envelope with the unrecognized kind
`unknown_kind` produces no outbound envelope at all — in particular no
`unknown_kind` error envelope — and the registry and connection list
are unchanged. -/
theorem C6_counterexample :
    handle_chat gwOk 300 regActive [connLiveA, connLiveB] "s1"
        (some ⟨some "unknown_kind", none, none⟩) =
      (regActive, [connLiveA, connLiveB], []) := by
  rfl

/-- C6 (amended). For every inbound envelope whose kind is
unrecognized: the chat websocket handler silently ignores it (no
envelope is sent, not even an error) and leaves the registry and
connection list unchanged; the video websocket handler unicasts an
`error` envelope whose message names the unknown type (not an
`unknown_kind` envelope) to the originating connection only, leaving
the session state and connection list unchanged. -/
theorem C6_amended (gw : GW) (vgw : VGW) (vrep : Except String String)
    (now : Int) (reg : Registry) (conns vconns : List Conn)
    (sid t : String) (vs : VSession) (c u d vc : Option String)
    (h1 : t ≠ "user_message") (h2 : t ≠ "ping") (h3 : t ≠ "end_interview")
    (h4 : t ≠ "audio_chunk") (h5 : t ≠ "video_frame")
    (h6 : t ≠ "text_message") :
    handle_chat gw now reg conns sid (some ⟨some t, c, u⟩) =
      (reg, conns, []) ∧
    handle_video vgw vrep now vs vconns (some ⟨some t, d, vc⟩) =
      (vs, vconns,
        [(Target.origin,
          ⟨"error", none, some ("Unknown message type: " ++ t), none, now⟩)]) := by
  constructor
  · simp [handle_chat, h1, h2, h3]
  · simp [handle_video, h2, h3, h4, h5, h6]

/-- Closed instance of C6_amended at the kind `unknown_kind`. -/
theorem C6_amended_witness :
    handle_chat gwOk 300 regActive [connLiveA] "s1"
        (some ⟨some "unknown_kind", none, none⟩) =
      (regActive, [connLiveA], []) ∧
    handle_video (fun _ => none) (Except.ok "rep") 300
        (VSession.mk "v1" "a1" 0 "active" [] true none "ctx") [connLiveB]
        (some ⟨some "unknown_kind", none, none⟩) =
      (VSession.mk "v1" "a1" 0 "active" [] true none "ctx", [connLiveB],
        [(Target.origin,
          ⟨"error", none, some ("Unknown message type: " ++ "unknown_kind"),
            none, 300⟩)]) :=
  C6_amended gwOk (fun _ => none) (Except.ok "rep") 300 regActive
    [connLiveA] [connLiveB] "s1" "unknown_kind"
    (VSession.mk "v1" "a1" 0 "active" [] true none "ctx") none none none none
    (by decide) (by decide) (by decide) (by decide) (by decide) (by decide)

/-- C7. For a registered session whose start time is not after the
report time, the generated report renders the duration as the floor of
the elapsed minutes (`int()` truncation agrees with floor for a
non-negative span) followed by the word `minutes`, and its question
count is the number of interviewer (`assistant`) turns in the
history. -/
theorem C7_duration_and_question_count (gw : GW) (now : Int)
    (reg : Registry) (sid c : String) (s : Session)
    (hs : regGet reg sid = some s)
    (hgw : gw (report_prompt s.conversation_history) = Except.ok c)
    (hle : s.start_time ≤ now) :
    ∃ rep : Report,
      (generate_report gw now reg sid).2 = Except.ok rep ∧
      rep.interview_duration = s!"{(now - s.start_time) / 60} minutes" ∧
      rep.total_questions = count_role "assistant" s.conversation_history := by
  rw [generate_report_spec gw now reg sid c s hs hgw]
  refine ⟨_, rfl, ?_, rfl⟩
  show calculate_duration s.start_time now = _
  unfold calculate_duration
  rw [Int.tdiv_eq_ediv (by omega) (by norm_num)]

/-- Closed instance of C7 at the active sample session. -/
theorem C7_witness :
    ∃ rep : Report,
      (generate_report gwOk 200 regActive "s1").2 = Except.ok rep ∧
      rep.interview_duration =
        s!"{(200 - sessActive.start_time) / 60} minutes" ∧
      rep.total_questions =
        count_role "assistant" sessActive.conversation_history :=
  C7_duration_and_question_count gwOk 200 regActive "s1" "Next question"
    sessActive (by rfl) (by rfl) (by decide)

/-- A video session whose Gemini backend is not connected. -/
def vsDisconnected : VSession :=
  { session_id := "v1"
    applicant_id := "a1"
    start_time := 0
    status := "active"
    conversation_history := []
    is_connected := false
    end_time := none
    interview_context := "You are an AI interviewer" }

/-- A video gateway whose every call fails. -/
def vgwNone : VGW := fun _ => none

/-- C8. The claim is false on the code: on a disconnected session
`send_video_frame` returns `False` (not a null result), and the video
websocket handler reacts to the falsy result by unicasting a
`Failed to send video to AI` error envelope to the client — an error
is surfaced. The session itself is unchanged (the interview is not
failed). -/
theorem C8_counterexample :
    handle_video vgwNone (Except.ok "rep") 400 vsDisconnected [connLiveA]
        (some ⟨some "video_frame", some "frame-bytes", none⟩) =
      (vsDisconnected, [connLiveA],
        [(Target.origin,
          ⟨"error", none, some "Failed to send video to AI", none, 400⟩)]) := by
  rfl

/-- C8 (amended). For every video session whose backend is not
connected, `send_video_frame` returns `False` without raising and
without touching the session; the websocket handler then unicasts a
`Failed to send video to AI` error envelope to the originating client,
but the interview is not failed: the session value (status, history,
connection flag) and the connection list are unchanged and the receive
loop continues. -/
theorem C8_amended (vgw : VGW) (vrep : Except String String) (now : Int)
    (vs : VSession) (conns : List Conn) (d : String)
    (hconn : vs.is_connected = false) :
    send_video_frame vgw now vs d = (vs, false) ∧
    handle_video vgw vrep now vs conns
        (some ⟨some "video_frame", some d, none⟩) =
      (vs, conns,
        [(Target.origin,
          ⟨"error", none, some "Failed to send video to AI", none, now⟩)]) := by
  constructor
  · simp [send_video_frame, hconn]
  · simp [handle_video, send_video_frame, hconn]

/-- Closed instance of C8_amended at the disconnected sample video
session. -/
theorem C8_amended_witness :
    send_video_frame vgwNone 400 vsDisconnected "frame-bytes" =
      (vsDisconnected, false) ∧
    handle_video vgwNone (Except.ok "rep") 400 vsDisconnected [connLiveA]
        (some ⟨some "video_frame", some "frame-bytes", none⟩) =
      (vsDisconnected, [connLiveA],
        [(Target.origin,
          ⟨"error", none, some "Failed to send video to AI", none, 400⟩)]) :=
  C8_amended vgwNone (Except.ok "rep") 400 vsDisconnected [connLiveA]
    "frame-bytes" (by rfl)
